import Mathlib

/-!
Verification of the skaffold event server (`pkg/skaffold/event/server.go`) and
the git-commit tagger (`pkg/skaffold/build/tag/git_commit.go`), shallowly
embedded in Lean.  Pure string work is translated directly; the stateful
event server is translated as explicit state passing, and the concurrent
subscriber machinery as explicit interleavings of atomic steps.
-/

/-! ## Event data model (`proto.Event`, `proto.LogEntry`, the handler state)

`proto.Event` carries an event type, a status, an artifact name, a
port-forward descriptor and an error field.  Timestamps are modelled as
natural numbers (the handler only ever stores the capture of the clock at
append time; no arithmetic is performed on it).
-/

/-- A port-forward descriptor (`proto.PortInfo`): a local port forwarded to a
remote port. -/
structure PortInfo where
  localPort : Nat
  remotePort : Nat
deriving DecidableEq, Repr

/-- Modelled from the spec: the event-kind constants (`Build`, `Deploy`,
`Port`) are declared outside the two given source files; the spec lists them
as distinct members of an extensible set of kinds.  They are embedded as
distinct string constants. -/
def Build : String := "Build"

/-- Modelled from the spec: see `Build`. -/
def Deploy : String := "Deploy"

/-- Modelled from the spec: see `Build`. -/
def Port : String := "Port"

/-- Modelled from the spec: the status constants (`InProgress`, `Complete`,
`Failed`) are declared outside the two given source files; the spec lists
them as distinct statuses.  They are embedded as distinct string
constants. -/
def InProgress : String := "In Progress"

/-- Modelled from the spec: see `InProgress`. -/
def Complete : String := "Complete"

/-- Modelled from the spec: see `InProgress`. -/
def Failed : String := "Failed"

/-- An incoming event (`proto.Event`): `eventType` is the kind, `status` the
lifecycle status, `artifact` the artifact identifier, `portInfo` the
port-forward payload and `err` the optional error description. -/
structure Event where
  eventType : String
  status : String
  artifact : String
  portInfo : PortInfo
  err : Option String
deriving DecidableEq, Repr

/-- One log record (`proto.LogEntry`): timestamp captured at append time, the
event's kind, the derived human-readable message and the event's error field
copied verbatim. -/
structure LogEntry where
  timestamp : Nat
  type : String
  entry : String
  error : Option String
deriving DecidableEq, Repr

/-- Per-artifact build statuses (`state.BuildState.Artifacts`, a Go map from
artifact id to status), embedded as an association list with unique keys kept
in insertion order. -/
structure BuildState where
  artifacts : List (String × String)
deriving DecidableEq, Repr

/-- The single deploy status (`state.DeployState.Status`). -/
structure DeployState where
  status : String
deriving DecidableEq, Repr

/-- The forwarded-ports sequence (`state.PortState.ForwardedPorts`). -/
structure PortState where
  forwardedPorts : List PortInfo
deriving DecidableEq, Repr

/-- The canonical mutable state (`proto.State`): build, deploy and
port-forward sub-states. -/
structure State where
  buildState : BuildState
  deployState : DeployState
  portState : PortState
deriving DecidableEq, Repr

/-- The event handler's state (`ev`): the canonical `State` plus the
append-only event log. -/
structure EvState where
  state : State
  eventLog : List LogEntry
deriving DecidableEq, Repr

/-- The empty initial state: empty build map, zero-valued deploy status,
no forwarded ports, empty log (spec: "State and the log are created once at
process start (empty)"). -/
def emptyEvState : EvState :=
  { state := { buildState := { artifacts := [] },
               deployState := { status := "" },
               portState := { forwardedPorts := [] } },
    eventLog := [] }

/-- Go map assignment `m[k] = v` on the association-list embedding: overwrite
the binding of `k` when present, append a new binding otherwise. -/
def mapInsert (m : List (String × String)) (k v : String) :
    List (String × String) :=
  match m with
  | [] => [(k, v)]
  | (k', v') :: rest =>
      if k' = k then (k, v) :: rest else (k', v') :: mapInsert rest k v

/-- Go map lookup `m[k]` on the association-list embedding. -/
def mapLookup (m : List (String × String)) (k : String) : Option String :=
  match m with
  | [] => none
  | (k', v') :: rest => if k' = k then some v' else mapLookup rest k

/-! ## The `Handle` method (`server.go` lines 57-99)

`Handle` interleaves one state mutation and the computation of the local
variable `entry`; the value of `entry` depends only on the incoming event and
the state mutation depends only on the event and the prior state, so the two
are embedded as the separate functions `deriveMessage` and `applyState`,
sequenced exactly as the source sequences them.  The source dispatches with
three sequential (non-exclusive) `if` statements on `event.EventType`; the
three kind constants are distinct, so at most one of them fires, and the
sequential threading below preserves the source's behaviour exactly even
where they would overlap.
-/

/-- The computation of the local variable `entry` in `Handle`: the `switch`
on `event.Status` inside the `Build` branch (lines 61-69) and inside the
`Deploy` branch (lines 73-81); the `Port` branch and the `default` cases
leave `entry` untouched. -/
def deriveMessage (event : Event) : String :=
  let entry : String := ""
  let entry :=
    if event.eventType = Build then
      if event.status = InProgress then "Build started for artifact " ++ event.artifact
      else if event.status = Complete then "Build completed for artifact " ++ event.artifact
      else if event.status = Failed then "Build failed for artifact " ++ event.artifact
      else entry
    else entry
  let entry :=
    if event.eventType = Deploy then
      if event.status = InProgress then "Deploy started"
      else if event.status = Complete then "Deploy complete"
      else if event.status = Failed then "Deploy failed"
      else entry
    else entry
  entry

/-- The state mutations in `Handle`: line 60 (Build: overwrite the artifact's
status), line 72 (Deploy: overwrite the deploy status), line 84 (Port: append
`event.PortInfo` to the forwarded ports). -/
def applyState (st : State) (event : Event) : State :=
  let st :=
    if event.eventType = Build then
      { st with buildState :=
          { artifacts := mapInsert st.buildState.artifacts event.artifact event.status } }
    else st
  let st :=
    if event.eventType = Deploy then
      { st with deployState := { status := event.status } }
    else st
  let st :=
    if event.eventType = Port then
      { st with portState :=
          { forwardedPorts := st.portState.forwardedPorts ++ [event.portInfo] } }
    else st
  st

/-- Modelled from the spec: `ev.logEvent` is declared outside the given
source files; per the spec, `EventLogStore.Append(entry)` "adds `entry` to
the end of the log" (fan-out to subscribers is modelled separately, in
`appendEntry`). -/
def logEvent (s : EvState) (e : LogEntry) : EvState :=
  { s with eventLog := s.eventLog ++ [e] }

/-- The `Handle` method (`server.go` lines 57-99): mutate the sub-state named
by the event's kind, derive the message, append one `LogEntry` carrying the
timestamp captured now, the event's kind, the derived message and the event's
error field verbatim (lines 92-97), and return the ack `(&empty.Empty{},
nil)` (line 98), embedded as error component `none`. -/
def Handle (s : EvState) (now : Nat) (event : Event) : EvState × Option String :=
  let entry := deriveMessage event
  let s := { s with state := applyState s.state event }
  let s := logEvent s
    { timestamp := now, type := event.eventType, entry := entry, error := event.err }
  (s, none)

/-! ## The spec-side message table (for the refinement claim C2) -/

/-- The message table as the spec states it: kind `Build` with status
`InProgress` / `Complete` / `Failed` yields "Build started for artifact
<id>" / "Build completed for artifact <id>" / "Build failed for artifact
<id>"; kind `Deploy` with those statuses yields "Deploy started" / "Deploy
complete" / "Deploy failed"; every other combination of kind and status,
including every `Port` event, yields the empty message. -/
def specMessage (event : Event) : String :=
  if event.eventType = Build ∧ event.status = InProgress then
    "Build started for artifact " ++ event.artifact
  else if event.eventType = Build ∧ event.status = Complete then
    "Build completed for artifact " ++ event.artifact
  else if event.eventType = Build ∧ event.status = Failed then
    "Build failed for artifact " ++ event.artifact
  else if event.eventType = Deploy ∧ event.status = InProgress then
    "Deploy started"
  else if event.eventType = Deploy ∧ event.status = Complete then
    "Deploy complete"
  else if event.eventType = Deploy ∧ event.status = Failed then
    "Deploy failed"
  else ""

example : deriveMessage ⟨Build, Failed, "artifact-x", ⟨0, 0⟩, none⟩ =
    "Build failed for artifact artifact-x" := by decide

example : deriveMessage ⟨Port, Failed, "a", ⟨8080, 80⟩, none⟩ = "" := by decide

/-! ## Concrete event sequence of the state-fold claim (C3) -/

/-- The event sequence of the spec's state-fold test: Build/artifact-a in
progress then complete, Deploy in progress then complete, then a
port-forward of local port 8080 to remote port 80. -/
def c3Events : List Event :=
  [⟨Build, InProgress, "artifact-a", ⟨0, 0⟩, none⟩,
   ⟨Build, Complete, "artifact-a", ⟨0, 0⟩, none⟩,
   ⟨Deploy, InProgress, "", ⟨0, 0⟩, none⟩,
   ⟨Deploy, Complete, "", ⟨0, 0⟩, none⟩,
   ⟨Port, "", "", ⟨8080, 80⟩, none⟩]

/-- Handling a sequence of events in order (repeated calls to `Handle`). -/
def handleAll (s : EvState) (events : List Event) : EvState :=
  events.foldl (fun s e => (Handle s 0 e).1) s

/-! ## Theorems for the `Handle` claims -/

/-- C2: for every incoming event the derived human-readable message equals
the fixed table `specMessage` (Build with the three known statuses yields the
three "Build ..." messages with the event's artifact, Deploy yields the three
"Deploy ..." messages, everything else yields the empty message); in
particular every `Port` event yields the empty message regardless of
payload. -/
theorem deriveMessage_eq_specMessage :
    (∀ event : Event, deriveMessage event = specMessage event) ∧
    (∀ (st a : String) (p : PortInfo) (er : Option String),
      deriveMessage ⟨Port, st, a, p, er⟩ = "") := by
  constructor
  · intro event
    simp only [deriveMessage, specMessage, Build, Deploy, Port,
      InProgress, Complete, Failed]
    split_ifs <;> simp_all
  · intro st a p er
    simp only [deriveMessage, Port, Build, Deploy]
    split_ifs <;> simp_all

/-- C5: every call to `Handle` appends exactly one `LogEntry` to the log,
carrying the timestamp captured at append time, the event's kind, the
derived message, and the event's error field copied verbatim — for every
event, unrecognized kinds included. -/
theorem Handle_appends_one_entry (s : EvState) (now : Nat) (e : Event) :
    ((Handle s now e).1).eventLog =
      s.eventLog ++ [⟨now, e.eventType, deriveMessage e, e.err⟩] := rfl

/-- C4: `Handle` always returns a success ack (`none` error), and an event
whose kind is none of Build, Deploy, Port causes no state mutation at all. -/
theorem Handle_unknown_kind_tolerant (s : EvState) (now : Nat) (e : Event) :
    (Handle s now e).2 = none ∧
    (e.eventType ≠ Build → e.eventType ≠ Deploy → e.eventType ≠ Port →
      (Handle s now e).1.state = s.state) := by
  refine ⟨rfl, ?_⟩
  intro h1 h2 h3
  simp [Handle, logEvent, applyState, h1, h2, h3]

/-- Witness for C4 at the concrete unknown kind "FileSync". -/
theorem Handle_unknown_kind_tolerant_witness :
    (Handle emptyEvState 0 ⟨"FileSync", Complete, "a", ⟨1, 2⟩, none⟩).2 = none ∧
    (Handle emptyEvState 0 ⟨"FileSync", Complete, "a", ⟨1, 2⟩, none⟩).1.state =
      emptyEvState.state := by
  have h := Handle_unknown_kind_tolerant emptyEvState 0
    ⟨"FileSync", Complete, "a", ⟨1, 2⟩, none⟩
  exact ⟨h.1, h.2 (by decide) (by decide) (by decide)⟩

/-- C7: `Handle` mutates only the sub-state matching the event's kind: Build
leaves deploy and port state unchanged, Deploy leaves build and port state
unchanged, and Port leaves build and deploy state unchanged while appending
its `portInfo` to the forwarded ports unconditionally. -/
theorem Handle_frame (s : EvState) (now : Nat) (e : Event) :
    (e.eventType = Build →
      (Handle s now e).1.state.deployState = s.state.deployState ∧
      (Handle s now e).1.state.portState = s.state.portState) ∧
    (e.eventType = Deploy →
      (Handle s now e).1.state.buildState = s.state.buildState ∧
      (Handle s now e).1.state.portState = s.state.portState) ∧
    (e.eventType = Port →
      (Handle s now e).1.state.buildState = s.state.buildState ∧
      (Handle s now e).1.state.deployState = s.state.deployState ∧
      (Handle s now e).1.state.portState.forwardedPorts =
        s.state.portState.forwardedPorts ++ [e.portInfo]) := by
  refine ⟨?_, ?_, ?_⟩ <;> intro h <;>
    simp [Handle, logEvent, applyState, h, Build, Deploy, Port]

/-- Witness for C7: the frame conditions at one concrete Build, Deploy and
Port event each. -/
theorem Handle_frame_witness :
    ((Handle emptyEvState 0 ⟨Build, Complete, "a", ⟨1, 2⟩, none⟩).1.state.deployState =
        emptyEvState.state.deployState ∧
      (Handle emptyEvState 0 ⟨Build, Complete, "a", ⟨1, 2⟩, none⟩).1.state.portState =
        emptyEvState.state.portState) ∧
    ((Handle emptyEvState 1 ⟨Deploy, Complete, "a", ⟨1, 2⟩, none⟩).1.state.buildState =
        emptyEvState.state.buildState ∧
      (Handle emptyEvState 1 ⟨Deploy, Complete, "a", ⟨1, 2⟩, none⟩).1.state.portState =
        emptyEvState.state.portState) ∧
    ((Handle emptyEvState 2 ⟨Port, "", "", ⟨8080, 80⟩, none⟩).1.state.buildState =
        emptyEvState.state.buildState ∧
      (Handle emptyEvState 2 ⟨Port, "", "", ⟨8080, 80⟩, none⟩).1.state.deployState =
        emptyEvState.state.deployState ∧
      (Handle emptyEvState 2 ⟨Port, "", "", ⟨8080, 80⟩, none⟩).1.state.portState.forwardedPorts =
        emptyEvState.state.portState.forwardedPorts ++ [⟨8080, 80⟩]) := by
  refine ⟨(Handle_frame emptyEvState 0 ⟨Build, Complete, "a", ⟨1, 2⟩, none⟩).1 rfl,
    (Handle_frame emptyEvState 1 ⟨Deploy, Complete, "a", ⟨1, 2⟩, none⟩).2.1 rfl,
    (Handle_frame emptyEvState 2 ⟨Port, "", "", ⟨8080, 80⟩, none⟩).2.2 rfl⟩

/-- C3: handling the sequence Build/artifact-a/InProgress,
Build/artifact-a/Complete, Deploy/InProgress, Deploy/Complete, Port/8080-80
from the empty initial state leaves artifact-a's build status Complete, the
deploy status Complete, and the forwarded ports equal to the single seen
port-forward descriptor. -/
theorem handleAll_c3_fold :
    mapLookup (handleAll emptyEvState c3Events).state.buildState.artifacts "artifact-a" =
        some Complete ∧
    (handleAll emptyEvState c3Events).state.deployState.status = Complete ∧
    (handleAll emptyEvState c3Events).state.portState.forwardedPorts = [⟨8080, 80⟩] := by
  refine ⟨rfl, rfl, rfl⟩

/-! ## The `EventLog` streaming method (`server.go` lines 40-55)

The streaming handler runs concurrently with producers calling `Handle`.
Its interaction with the shared store decomposes into two atomic-at-the-Go-
statement-level phases with NO lock held across them (`server.go` holds no
lock anywhere):

  * phase 1 (lines 41-45): read `ev.eventLog` and replay it to the remote
    peer (`snapshotPhase` below reads the snapshot that is replayed);
  * phase 2 (lines 46-47): create a channel and call `ev.RegisterListener`
    (`registerPhase` below);
  * lines 48-54: loop forever, forwarding each entry received on the channel
    to the remote peer; the only exit from the loop (and so from the
    handler, once registered) is `return err` when a send fails (line 52),
    and no deregistration call appears on that path — `server.go` contains
    no unsubscribe call at all.

`BusState` is the shared store: the log plus, for each registered listener
channel, the sequence of entries delivered to it so far.  A producer step is
`appendEntry` (modelled from the spec: `Append` adds to the log and fans the
entry out to every currently registered listener).  A subscriber's received
sequence is its replayed snapshot followed by the entries delivered on its
channel.
-/

/-- The shared store seen by producers and streaming subscribers: the event
log, and one entry-sequence per registered listener channel (the entries
fanned out to that channel so far). -/
structure BusState where
  eventLog : List LogEntry
  listeners : List (List LogEntry)
deriving DecidableEq, Repr

/-- Modelled from the spec: `Append` "adds `entry` to the end of the log,
then delivers a copy of `entry` to every currently live subscriber" (this is
the `ev.logEvent` step of `Handle`, seen at the store level). -/
def appendEntry (b : BusState) (e : LogEntry) : BusState :=
  { eventLog := b.eventLog ++ [e],
    listeners := b.listeners.map (fun l => l ++ [e]) }

/-- Phase 1 of the `EventLog` handler (lines 41-45): the snapshot read of
`ev.eventLog` whose entries are replayed to the remote peer. -/
def snapshotPhase (b : BusState) : List LogEntry := b.eventLog

/-- Phase 2 of the `EventLog` handler (lines 46-47): `make(chan ...)` and
`ev.RegisterListener(c)` — a fresh channel, with nothing delivered yet, is
added to the listener set.  Modelled from the spec for the store side
(`Subscribe` "registers a new delivery endpoint"); the call site is line
47 of `server.go`. -/
def registerPhase (b : BusState) : BusState :=
  { b with listeners := b.listeners ++ [[]] }

/-- The net effect of one complete `EventLog` handler run (lines 40-55) on
the listener set.  When a replay send fails (line 43) the handler returns
before `RegisterListener`, leaving the set unchanged; otherwise the channel
is registered (line 47) and the handler, which can only terminate via the
`return err` of line 52, terminates with no deregistration — `server.go`
contains no unsubscribe call on any path. -/
def eventLogHandlerEffect (b : BusState) (replaySendFails : Bool) : BusState :=
  if replaySendFails then b else registerPhase b

/-- The three entries of the C1 interleaving. -/
def entryA : LogEntry := ⟨1, Build, "", none⟩

/-- Second entry of the C1 interleaving. -/
def entryB : LogEntry := ⟨2, Build, "", none⟩

/-- Third entry of the C1 interleaving. -/
def entryC : LogEntry := ⟨3, Build, "", none⟩

/-- The C1 interleaving: append `entryA`; the subscriber reads its snapshot
(phase 1); append `entryB`; the subscriber registers (phase 2); append
`entryC`.  Nothing in `server.go` prevents this schedule: no lock guards the
gap between the snapshot read and the registration. -/
def c1Bus1 : BusState := appendEntry ⟨[], []⟩ entryA

/-- The snapshot the subscriber replays in the C1 interleaving. -/
def c1Snapshot : List LogEntry := snapshotPhase c1Bus1

/-- The store after `entryB` is appended, before the subscriber registers. -/
def c1Bus2 : BusState := appendEntry c1Bus1 entryB

/-- The store after the subscriber registers. -/
def c1Bus3 : BusState := registerPhase c1Bus2

/-- The final store, after `entryC` is appended. -/
def c1Bus4 : BusState := appendEntry c1Bus3 entryC

/-- C1 fails on the code: in the interleaving `append entryA`; snapshot
read; `append entryB`; register; `append entryC` — possible because
`server.go` takes no lock, so the snapshot replay (lines 41-45) and the
registration (lines 46-47) are not one critical section with `Append` — the
appended sequence is `[entryA, entryB, entryC]` but the subscriber receives
(snapshot followed by live deliveries) only `[entryA, entryC]`: `entryB` is
lost, a gap.  This refutes the claim that replay-then-live always forms
exactly the appended sequence. -/
theorem eventLog_attach_has_gap :
    c1Bus4.eventLog = [entryA, entryB, entryC] ∧
    c1Snapshot ++ c1Bus4.listeners.getD 0 [] = [entryA, entryC] ∧
    c1Snapshot ++ c1Bus4.listeners.getD 0 [] ≠ c1Bus4.eventLog := by
  refine ⟨rfl, rfl, ?_⟩
  decide

/-- C6 fails on the code: a subscriber whose handler run registered (replay
succeeded) and then terminated through the send error of line 52 — the only
way the forwarding loop ends — remains in the listener set after the handler
has returned: `server.go` performs no unsubscribe on any exit path. -/
theorem eventLog_terminated_subscriber_remains :
    (eventLogHandlerEffect ⟨[entryA], []⟩ false).listeners = [[]] ∧
    (eventLogHandlerEffect ⟨[entryA], []⟩ false).listeners ≠ [] := by
  refine ⟨rfl, ?_⟩
  decide

/-! ## `newStatusServer` (`server.go` lines 102-123)

The network and RPC machinery are external collaborators; the outcome of
`net.Listen("tcp", port)` is passed in as an `Except` value, and the model
records whether a bind was attempted, whether a listener/server is left
running, which stop function is returned, and the error result.
-/

/-- The two stop functions `newStatusServer` can return: the no-op `func()
{}` (lines 104 and 108) and the real one that stops the server and closes
the listener (lines 119-122). -/
inductive StopFn where
  | noop
  | stopAndClose
deriving DecidableEq, Repr

/-- What a call to `newStatusServer` did and returned. -/
structure StartResult where
  bindAttempted : Bool
  listenerRunning : Bool
  stop : StopFn
  errMsg : Option String
deriving DecidableEq, Repr

/-- The `newStatusServer` function (lines 102-123): with an empty port it
returns the no-op stop function and nil error without touching the network
(lines 103-105); otherwise it calls `net.Listen` (line 106) and on failure
returns the no-op stop function and the error wrapped as "creating
listener: ..." (lines 107-109) with no listener running; on success it
serves in the background and returns the stop-and-close function and nil
error. -/
def newStatusServer (port : String) (listenResult : Except String Unit) :
    StartResult :=
  if port = "" then
    { bindAttempted := false, listenerRunning := false,
      stop := StopFn.noop, errMsg := none }
  else
    match listenResult with
    | Except.error e =>
        { bindAttempted := true, listenerRunning := false,
          stop := StopFn.noop, errMsg := some ("creating listener: " ++ e) }
    | Except.ok _ =>
        { bindAttempted := true, listenerRunning := true,
          stop := StopFn.stopAndClose, errMsg := none }

/-- C8: an unconfigured (empty) address yields a no-op stop function and no
error with no bind attempted; a configured address whose bind fails yields
the wrapped "creating listener" error, a no-op stop function and no running
listener. -/
theorem newStatusServer_disabled_and_bind_failure :
    (∀ r : Except String Unit,
      newStatusServer "" r =
        { bindAttempted := false, listenerRunning := false,
          stop := StopFn.noop, errMsg := none }) ∧
    (∀ (port e : String), port ≠ "" →
      newStatusServer port (Except.error e) =
        { bindAttempted := true, listenerRunning := false,
          stop := StopFn.noop, errMsg := some ("creating listener: " ++ e) }) := by
  constructor
  · intro r
    simp [newStatusServer]
  · intro port e h
    simp [newStatusServer, h]

/-- Witness for C8 at the concrete port ":50051" and bind error "address
already in use". -/
theorem newStatusServer_disabled_and_bind_failure_witness :
    newStatusServer "" (Except.ok ()) =
      { bindAttempted := false, listenerRunning := false,
        stop := StopFn.noop, errMsg := none } ∧
    newStatusServer ":50051" (Except.error "address already in use") =
      { bindAttempted := true, listenerRunning := false,
        stop := StopFn.noop,
        errMsg := some ("creating listener: " ++ "address already in use") } := by
  refine ⟨newStatusServer_disabled_and_bind_failure.1 (Except.ok ()),
    newStatusServer_disabled_and_bind_failure.2 ":50051" "address already in use"
      (by decide)⟩

/-! ## The git-commit tagger (`git_commit.go`)

`sanitizeTag` (lines 101-119) is pure string work; strings are embedded as
their character lists (Go operates on bytes, but every character the
function produces is ASCII, so byte positions and character positions
coincide).  The git invocations of `GenerateFullyQualifiedImageName` (lines
81-97) are external process executions; their outcomes are passed in as
`Except` values.
-/

/-- Membership in the character class `[a-zA-Z0-9-._]` of the first regular
expression of `sanitizeTag` (line 103): the characters docker allows in a
tag. -/
def isTagChar (c : Char) : Bool :=
  ('a' ≤ c && c ≤ 'z') || ('A' ≤ c && c ≤ 'Z') || ('0' ≤ c && c ≤ '9') ||
    c = '-' || c = '.' || c = '_'

/-- Line 103: replace every character outside `[a-zA-Z0-9-._]` with an
underscore. -/
def sanitizeChars (cs : List Char) : List Char :=
  cs.map (fun c => if isTagChar c then c else '_')

/-- The length of the leading run of dashes and dots — the capture group
`([-.]*)` of the second regular expression of `sanitizeTag` (line 106). -/
def leadingDotDash : List Char → Nat
  | [] => 0
  | c :: cs => if c = '-' ∨ c = '.' then leadingDotDash cs + 1 else 0

/-- The `sanitizeTag` pipeline on character lists (lines 101-112): replace
the unsupported characters with underscores (line 103), replace the leading
dashes and dots with the same number of underscores (lines 106-107), and
truncate to 128 characters (lines 110-112). -/
def sanitizeTagChars (cs : List Char) : List Char :=
  let sanitized := sanitizeChars cs
  let k := leadingDotDash sanitized
  let sanitized := List.replicate k '_' ++ sanitized.drop k
  if sanitized.length > 128 then sanitized.take 128 else sanitized

/-- The `sanitizeTag` function (lines 101-119) on strings. -/
def sanitizeTag (tag : String) : String :=
  String.mk (sanitizeTagChars tag.data)

example : sanitizeTag "-v1.0!x" = "_v1.0_x" := by decide

example : sanitizeTag "..-a" = "___a" := by decide

/-- The `GenerateFullyQualifiedImageName` method (lines 81-97): `gitTag` is
the outcome of `makeGitTag` (line 82) and `gitStatus` the outcome of `git
status . --porcelain` (line 87).  Errors are wrapped (lines 84 and 89); with
pending changes the raw ref is used with a "-dirty" suffix (lines 92-94);
with a clean tree the ref is sanitized (line 96).  The prefix is used as-is
in both cases. -/
def GenerateFullyQualifiedImageName (pfx imageName : String)
    (gitTag gitStatus : Except String String) : Except String String :=
  match gitTag with
  | Except.error e => Except.error ("unable to find git commit: " ++ e)
  | Except.ok ref =>
      match gitStatus with
      | Except.error e => Except.error ("getting git status: " ++ e)
      | Except.ok changes =>
          if changes.length > 0 then
            Except.ok (imageName ++ ":" ++ pfx ++ ref ++ "-dirty")
          else
            Except.ok (imageName ++ ":" ++ pfx ++ sanitizeTag ref)

/-! ### Lemmas for the sanitizeTag claim -/

/-- A sublist of a list all of whose members satisfy `p` also satisfies
`p` everywhere. -/
theorem all_of_subset {p : Char → Bool} {l l' : List Char} (hsub : l' ⊆ l)
    (h : l.all p = true) : l'.all p = true := by
  rw [List.all_eq_true] at *
  exact fun c hc => h c (hsub hc)

/-- Every character produced by the first replacement pass is in the docker
tag character class. -/
theorem sanitizeChars_all (cs : List Char) :
    (sanitizeChars cs).all isTagChar = true := by
  rw [List.all_eq_true]
  intro c hc
  obtain ⟨a, _, rfl⟩ := List.mem_map.1 hc
  by_cases h : isTagChar a
  · simp [h]
  · rw [if_neg h]
    decide

/-- The second pass keeps every character in the docker tag character
class. -/
theorem replicate_drop_all (l : List Char) (h : l.all isTagChar = true)
    (k : Nat) :
    (List.replicate k '_' ++ l.drop k).all isTagChar = true := by
  rw [List.all_append, Bool.and_eq_true]
  refine ⟨?_, ?_⟩
  · rw [List.all_eq_true]
    intro c hc
    rw [List.eq_of_mem_replicate hc]
    decide
  · exact all_of_subset (List.drop_subset _ _) h

/-- Taking a positive number of elements preserves the optional first
element. -/
theorem head?_take_pos (l : List Char) (n : Nat) (h : n ≠ 0) :
    (l.take n).head? = l.head? := by
  cases l with
  | nil => simp
  | cons c t =>
      obtain ⟨m, rfl⟩ := Nat.exists_eq_succ_of_ne_zero h
      simp [List.take_succ_cons]

/-- After replacing the leading dashes and dots, the optional first
character is neither a dash nor a dot. -/
theorem head_replicate_drop (l : List Char) :
    (List.replicate (leadingDotDash l) '_' ++
        l.drop (leadingDotDash l)).head? ≠ some '-' ∧
    (List.replicate (leadingDotDash l) '_' ++
        l.drop (leadingDotDash l)).head? ≠ some '.' := by
  cases l with
  | nil => simp [leadingDotDash]
  | cons c t =>
      by_cases h : c = '-' ∨ c = '.'
      · rw [show leadingDotDash (c :: t) = leadingDotDash t + 1 from by
          simp [leadingDotDash, h]]
        simp [List.replicate_succ]
      · rw [show leadingDotDash (c :: t) = 0 from by simp [leadingDotDash, h]]
        push_neg at h
        simp [h.1, h.2]

/-- Truncation to 128 characters (lines 110-112) keeps the three tag
properties established for its argument. -/
theorem truncate_keeps (l : List Char) (hall : l.all isTagChar = true)
    (h1 : l.head? ≠ some '-') (h2 : l.head? ≠ some '.') :
    (if l.length > 128 then l.take 128 else l).length ≤ 128 ∧
    (if l.length > 128 then l.take 128 else l).all isTagChar = true ∧
    (if l.length > 128 then l.take 128 else l).head? ≠ some '-' ∧
    (if l.length > 128 then l.take 128 else l).head? ≠ some '.' := by
  by_cases hgt : l.length > 128
  · rw [if_pos hgt]
    exact ⟨by rw [List.length_take]; omega,
      all_of_subset (List.take_subset _ _) hall,
      by rw [head?_take_pos _ _ (by omega)]; exact h1,
      by rw [head?_take_pos _ _ (by omega)]; exact h2⟩
  · rw [if_neg hgt]
    exact ⟨by omega, hall, h1, h2⟩

/-- C9: for every input string, `sanitizeTag` returns a string of at most
128 characters, all drawn from `a-z`, `A-Z`, `0-9`, dash, dot and
underscore, and never beginning with a dash or a dot. -/
theorem sanitizeTag_valid_docker_tag (tag : String) :
    (sanitizeTag tag).length ≤ 128 ∧
    (sanitizeTag tag).data.all isTagChar = true ∧
    (sanitizeTag tag).data.head? ≠ some '-' ∧
    (sanitizeTag tag).data.head? ≠ some '.' := by
  exact truncate_keeps _
    (replicate_drop_all _ (sanitizeChars_all tag.data) _)
    (head_replicate_drop (sanitizeChars tag.data)).1
    (head_replicate_drop (sanitizeChars tag.data)).2

/-- C10: the git reference is sanitized only in the clean-tree case; when
git status reports pending changes the returned name is the image name, a
colon, the raw prefix, the raw unsanitized reference and "-dirty", and in
the clean case it is the image name, a colon, the raw prefix and the
sanitized reference — the prefix is never sanitized in either case. -/
theorem GenerateFullyQualifiedImageName_sanitizes_only_clean
    (pfx imageName ref changes : String) :
    (changes.length > 0 →
      GenerateFullyQualifiedImageName pfx imageName (Except.ok ref)
          (Except.ok changes) =
        Except.ok (imageName ++ ":" ++ pfx ++ ref ++ "-dirty")) ∧
    (changes.length = 0 →
      GenerateFullyQualifiedImageName pfx imageName (Except.ok ref)
          (Except.ok changes) =
        Except.ok (imageName ++ ":" ++ pfx ++ sanitizeTag ref)) := by
  constructor <;> intro h <;> simp [GenerateFullyQualifiedImageName, h]

/-- Witness for C10 at a prefix and reference that the sanitizer would
rewrite: with pending changes the raw reference and raw prefix are used;
with a clean tree only the reference is sanitized. -/
theorem GenerateFullyQualifiedImageName_sanitizes_only_clean_witness :
    GenerateFullyQualifiedImageName "@pre-" "img" (Except.ok "v1..x@y")
        (Except.ok " M file") =
      Except.ok ("img" ++ ":" ++ "@pre-" ++ "v1..x@y" ++ "-dirty") ∧
    GenerateFullyQualifiedImageName "@pre-" "img" (Except.ok "v1..x@y")
        (Except.ok "") =
      Except.ok ("img" ++ ":" ++ "@pre-" ++ sanitizeTag "v1..x@y") := by
  refine ⟨(GenerateFullyQualifiedImageName_sanitizes_only_clean
      "@pre-" "img" "v1..x@y" " M file").1 (by decide),
    (GenerateFullyQualifiedImageName_sanitizes_only_clean
      "@pre-" "img" "v1..x@y" "").2 (by decide)⟩
